import Mathlib

/-!
Verification of the PDF-to-DOCX conversion service (`app.py`, `pdf.py`).

The development shallowly embeds the Python source:

* `parse_page_range` embeds `app.py`'s HTTP page-range parser (lines 15-37).
* `cli_parse_range` embeds the inline page-range parsing of
  `PDFtoDocxConverter._interactive_single_convert` (`pdf.py` lines 267-280).
* `convert_try_body` / `convert_single_file` embed
  `PDFtoDocxConverter.convert_single_file` (`pdf.py` lines 70-122), with the
  external `pdf2docx` library call and the filesystem abstracted as oracle
  parameters and exceptions made explicit with `Except`.
* `batch_convert_loop` embeds the per-file loop of
  `PDFtoDocxConverter.batch_convert` (`pdf.py` lines 162-184), with the
  operator's `input()` answers supplied as a list oracle.
* `convert_batch` embeds the `/api/convert-batch` handler
  (`app.py` lines 100-142), with each upload's conversion outcome an oracle.
* `pdf_info` embeds the `/api/pdf-info` handler (`app.py` lines 50-68), with
  `get_pdf_info`'s outcome an oracle (`pdf.py`'s `get_pdf_info` catches every
  exception and returns `None`, hence an `Option`).

Python strings are modelled as Lean `String` / `List Char`; Python `int` is
`Int`.  `pyIntOfChars` models CPython's `int(str)` restricted to ASCII:
surrounding whitespace, an optional sign, then a nonempty digit run
(underscore group separators and non-ASCII digits are not modelled; no claim
below depends on them).
-/

/-- Python `str.lower()` (ASCII fragment), character by character. -/
def pyLower (s : String) : String :=
  String.mk (s.data.map Char.toLower)

/-- Python `str.endswith(suffix)` on character lists. -/
def pyEndsWith (l suffix : List Char) : Bool :=
  suffix.reverse.isPrefixOf l.reverse

/-- ASCII whitespace recognised by Python's `str.strip` / `int`. -/
def isPySpace (c : Char) : Bool :=
  c = ' ' || c = '\t' || c = '\n' || c = '\r' || c = '\x0b' || c = '\x0c'

/-- Python `str.strip()` on a character list: drop whitespace at both ends. -/
def stripChars (l : List Char) : List Char :=
  ((l.dropWhile isPySpace).reverse.dropWhile isPySpace).reverse

/-- Value of an ASCII decimal digit. -/
def digitVal (c : Char) : Option Nat :=
  if '0' ≤ c ∧ c ≤ '9' then some (c.toNat - '0'.toNat) else none

/-- Parse a nonempty all-digit run; `none` on empty input or a non-digit. -/
def digitsVal : List Char → Option Nat
  | [] => none
  | l =>
    l.foldl
      (fun acc c =>
        match acc, digitVal c with
        | some a, some d => some (a * 10 + d)
        | _, _ => none)
      (some 0)

/-- Model of CPython `int(s)` for `s : str` (ASCII fragment): strip
whitespace, optional `+`/`-` sign, then a nonempty digit run; `none` models
the `ValueError` raised on any other shape. -/
def pyIntOfChars (l : List Char) : Option Int :=
  match stripChars l with
  | '-' :: rest => (digitsVal rest).map (fun n => -(n : Int))
  | '+' :: rest => (digitsVal rest).map (fun n => (n : Int))
  | t => (digitsVal t).map (fun n => (n : Int))

/-- Python `s.split("-", 1)`: split at the first `-`.  Only used under a
`"-" in s` guard, exactly as in `app.py`. -/
def splitOnceDash : List Char → List Char × List Char
  | [] => ([], [])
  | c :: rest =>
    if c = '-' then ([], rest)
    else
      let p := splitOnceDash rest
      (c :: p.1, p.2)

/-- Python `s.split('-')` with no limit: one piece per dash-separated run,
`[""]` on the empty string. -/
def splitAllDash : List Char → List (List Char)
  | [] => [[]]
  | c :: rest =>
    if c = '-' then [] :: splitAllDash rest
    else
      match splitAllDash rest with
      | [] => [[c]]
      | p :: ps => (c :: p) :: ps

/-- Embedding of `parse_page_range` (`app.py` lines 15-37).

```python
start_page, end_page = 0, None
if not page_range:
    return start_page, end_page
try:
    page_range = page_range.strip()
    if "-" in page_range:
        a, b = page_range.split("-", 1)
        start_page = max(int(a) - 1, 0)
        end_page = int(b)
    else:
        start_page = max(int(page_range) - 1, 0)
        end_page = start_page + 1
except Exception:
    start_page, end_page = 0, None
return start_page, end_page
```

A failure of either `int` call lands in the `except` arm, which resets both
variables, so both `int` results must be present for the range arm. -/
def parse_page_range (s : String) : Int × Option Int :=
  if s = "" then (0, none)
  else if (stripChars s.data).contains '-' then
    match pyIntOfChars (splitOnceDash (stripChars s.data)).1,
          pyIntOfChars (splitOnceDash (stripChars s.data)).2 with
    | some a, some b => (max (a - 1) 0, some b)
    | _, _ => (0, none)
  else
    match pyIntOfChars (stripChars s.data) with
    | some n => (max (n - 1) 0, some (max (n - 1) 0 + 1))
    | none => (0, none)

/-- Embedding of the inline range parsing of
`PDFtoDocxConverter._interactive_single_convert` (`pdf.py` lines 267-280).

```python
page_range = input("...").strip()
start_page, end_page = 0, None
if page_range:
    try:
        if '-' in page_range:
            start, end = page_range.split('-')
            start_page = int(start) - 1
            end_page = int(end)
        else:
            start_page = int(page_range) - 1
            end_page = start_page + 1
    except ValueError:
        print("...")
```

Differences from `app.py` preserved here: `split('-')` has no limit, so three
or more pieces make the tuple unpacking raise `ValueError` before anything is
assigned; there is no `max(..., 0)` clamp; and when `int(start)` succeeds but
`int(end)` raises, `start_page` keeps its already-assigned value `int(start)-1`
while `end_page` stays `None` (the handler only prints a warning). -/
def cli_parse_range (s : String) : Int × Option Int :=
  if stripChars s.data = [] then (0, none)
  else if (stripChars s.data).contains '-' then
    match splitAllDash (stripChars s.data) with
    | [x, y] =>
      match pyIntOfChars x with
      | none => (0, none)
      | some a =>
        match pyIntOfChars y with
        | some b => (a - 1, some b)
        | none => (a - 1, none)
    | _ => (0, none)
  else
    match pyIntOfChars (stripChars s.data) with
    | some n => (n - 1, some (n - 1 + 1))
    | none => (0, none)

/-! ## Conversion adapter: `PDFtoDocxConverter.convert_single_file`

`pdf.py` lines 70-122.  The external world is abstracted: `pdfExists` is the
`os.path.exists(pdf_path)` answer, `needMkdir` is whether `dirname(docx_path)`
is nonempty and missing, `mkdirRaises` is whether `os.makedirs` raises, and
`LibResult` is the outcome of `Converter(pdf_path); cv.convert(...); cv.close()`
followed by the `os.path.exists(docx_path)` check (`completes d`: the library
call returns and the destination exists iff `d`; `raises`: the library raises).
Raising is explicit as `Except.error ()`. -/

/-- Outcome of the external `pdf2docx` library call. -/
inductive LibResult where
  | completes (docxExistsAfter : Bool)
  | raises
deriving DecidableEq

/-- Side effects observed while `convert_single_file` runs: whether the
library conversion was invoked and whether `os.makedirs` was invoked. -/
structure ConvEffects where
  libConvertCalled : Bool
  mkdirCalled : Bool
deriving DecidableEq

instance {ε α : Type} [DecidableEq ε] [DecidableEq α] :
    DecidableEq (Except ε α) := fun x y =>
  match x, y with
  | Except.error a, Except.error b =>
    if h : a = b then isTrue (congrArg Except.error h)
    else isFalse (fun hc => h (by injection hc))
  | Except.ok a, Except.ok b =>
    if h : a = b then isTrue (congrArg Except.ok h)
    else isFalse (fun hc => h (by injection hc))
  | Except.error _, Except.ok _ => isFalse (fun hc => Except.noConfusion hc)
  | Except.ok _, Except.error _ => isFalse (fun hc => Except.noConfusion hc)

/-- The statements inside the `try:` of `convert_single_file`
(`pdf.py` lines 84-118): `Except.error ()` marks a raised exception reaching
the end of the block; `Except.ok b` a `return b`. -/
def convert_try_body (pdfExists needMkdir mkdirRaises : Bool)
    (lib : LibResult) : Except Unit Bool × ConvEffects :=
  if pdfExists = false then
    (Except.ok false, ⟨false, false⟩)
  else if needMkdir && mkdirRaises then
    (Except.error (), ⟨false, true⟩)
  else
    match lib with
    | LibResult.raises => (Except.error (), ⟨true, needMkdir⟩)
    | LibResult.completes d => (Except.ok d, ⟨true, needMkdir⟩)

/-- Embedding of `convert_single_file` (`pdf.py` lines 70-122): the
`except Exception` arm turns every exception from the `try:` body into
`return False` (after logging). -/
def convert_single_file (pdfExists needMkdir mkdirRaises : Bool)
    (lib : LibResult) : Bool × ConvEffects :=
  match convert_try_body pdfExists needMkdir mkdirRaises lib with
  | (Except.ok b, eff) => (b, eff)
  | (Except.error _, eff) => (false, eff)

/-! ## Batch loop: `PDFtoDocxConverter.batch_convert`

`pdf.py` lines 162-184, the per-file loop.  Each already-listed PDF is
abstracted to whether its same-named `.docx` output already exists
(`docx_file.exists()`) and whether `convert_single_file` succeeds on it.
Operator answers to the overwrite prompt are a list oracle consumed one entry
per `input()` call; the concrete inputs used below always supply enough
answers, so the `headD ""` default is never exercised. -/

/-- One already-matched PDF file in `batch_convert`'s loop. -/
structure BatchEntry where
  outExists : Bool
  convOk : Bool
deriving DecidableEq

/-- Observable outcome of the batch loop: conversions that succeeded,
overwrite prompts issued, and `convert_single_file` calls made. -/
structure BatchTrace where
  success : Nat
  prompts : Nat
  attempts : Nat
deriving DecidableEq

/-- Embedding of the loop body of `batch_convert` (`pdf.py` lines 162-184).

```python
for i, pdf_file in enumerate(pdf_files, 1):
    docx_file = output_path / f"..."
    if docx_file.exists():
        response = input("... (y/n/a=all/s=skip all): ").lower()
        if response in ['n', 'no']:
            continue
        elif response in ['s', 'skip']:
            break
        elif response in ['a', 'all']:
            pass  # keep overwriting everything
    if self.convert_single_file(str(pdf_file), str(docx_file)):
        success_count += 1
```

Note the `'a'` arm is `pass`: nothing records the choice, so the next
existing output prompts again, and any answer outside the three lists (for
example `'y'`) also falls through to the conversion. -/
def batch_convert_loop : List BatchEntry → List String → BatchTrace
  | [], _ => ⟨0, 0, 0⟩
  | f :: rest, resps =>
    if f.outExists then
      let r := pyLower (resps.headD "")
      if r = "n" || r = "no" then
        let t := batch_convert_loop rest resps.tail
        ⟨t.success, t.prompts + 1, t.attempts⟩
      else if r = "s" || r = "skip" then
        ⟨0, 1, 0⟩
      else
        let t := batch_convert_loop rest resps.tail
        ⟨t.success + (if f.convOk then 1 else 0), t.prompts + 1, t.attempts + 1⟩
    else
      let t := batch_convert_loop rest resps
      ⟨t.success + (if f.convOk then 1 else 0), t.prompts, t.attempts + 1⟩

/-! ## HTTP batch endpoint: `/api/convert-batch`

`app.py` lines 100-142.  Each upload is abstracted to its filename and
whether `convert_single_file` would succeed on it.  (The `not f` falsiness
guard models a missing file object; uploads present in `getlist` are truthy,
so only the filename test decides skipping.) -/

/-- One entry of `request.files.getlist('pdfs')`. -/
structure UploadEntry where
  filename : String
  convOk : Bool
deriving DecidableEq

/-- The skip test of `app.py` line 115: `f.filename.lower().endswith('.pdf')`. -/
def pdfNamedStr (name : String) : Bool :=
  pyEndsWith (pyLower name).data ".pdf".data

/-- Whether an upload passes the `.pdf`-name guard. -/
def pdfNamed (f : UploadEntry) : Bool :=
  pdfNamedStr f.filename

/-- Filenames on which the batch handler invokes `convert_single_file`
(loop of `app.py` lines 114-123, in order). -/
def batch_attempted (files : List UploadEntry) : List String :=
  (files.filter pdfNamed).map (fun f => f.filename)

/-- The handler's `success` counter after the loop. -/
def batch_success (files : List UploadEntry) : Nat :=
  (files.filter (fun f => pdfNamed f && f.convOk)).length

/-- Response of an HTTP handler: a structured `jsonify` failure with its
status code, or a streamed archive holding the given number of outputs. -/
inductive HttpResponse where
  | failure (code : Nat)
  | archive (entryCount : Nat)
deriving DecidableEq

/-- Embedding of the `/api/convert-batch` handler (`app.py` lines 100-142):
empty upload list rejected with 400, zero successful conversions with 500,
otherwise the produced outputs are zipped and streamed. -/
def convert_batch (files : List UploadEntry) : HttpResponse :=
  if files = [] then HttpResponse.failure 400
  else if batch_success files = 0 then HttpResponse.failure 500
  else HttpResponse.archive (batch_success files)

/-! ## Metadata endpoint: `/api/pdf-info`

`app.py` lines 50-68.  `get_pdf_info` (`pdf.py` lines 194-222) catches every
exception and returns `None` on failure, so its outcome is an
`Option PdfMetadata` oracle.  The handler materializes the upload to a
temporary path before the `try`, and the `finally` removes that path on both
return paths. -/

/-- The dictionary built by `get_pdf_info` (`pdf.py` lines 209-216). -/
structure PdfMetadata where
  pages : Nat
  title : String
  author : String
  subject : String
  creator : String
  file_size : String
deriving DecidableEq

/-- Embedding of the `/api/pdf-info` handler (`app.py` lines 50-68).  Second
component: whether the temporary file was removed before returning (the
`finally` arm; `false` on the 400 path, where no temporary file was ever
created). -/
def pdf_info (hasFile : Bool) (info : Option PdfMetadata) :
    (HttpResponse ⊕ PdfMetadata) × Bool :=
  if hasFile = false then (Sum.inl (HttpResponse.failure 400), false)
  else
    match info with
    | none => (Sum.inl (HttpResponse.failure 500), true)
    | some m => (Sum.inr m, true)

/-! ## Input classes used by amended claims -/

/-- Inputs whose range values, when both present, are ordered: either no dash
is in the (stripped) text, or an `int` call fails (fallback), or the two dash
split values `a`, `b` satisfy `a ≤ b` and `1 ≤ b`.  This is the class of
inputs on which the `start < end` invariant of the spec's PageRange holds. -/
def orderedRangeInput (t : List Char) : Bool :=
  if t.contains '-' then
    match pyIntOfChars (splitOnceDash t).1, pyIntOfChars (splitOnceDash t).2 with
    | some a, some b => decide (a ≤ b ∧ 1 ≤ b)
    | _, _ => true
  else true

/-- Inputs (stripped) on which the HTTP parser and the CLI inline parser
agree: no dash and the text fails integer parsing or denotes an integer ≥ 1;
or dashes are present and either the first dash-separated piece fails integer
parsing, or the text splits into exactly two pieces that both parse as
integers with the left value ≥ 1. -/
def parsersAgreeCond (t : List Char) : Bool :=
  if t.contains '-' then
    match splitAllDash t with
    | [x, y] =>
      match pyIntOfChars x, pyIntOfChars y with
      | none, _ => true
      | some a, some _ => decide (1 ≤ a)
      | some _, none => false
    | _ =>
      match pyIntOfChars (splitOnceDash t).1 with
      | none => true
      | some _ => false
  else
    match pyIntOfChars t with
    | none => true
    | some n => decide (1 ≤ n)

/-! ## Sanity evaluations of the embeddings on concrete inputs -/

example : parse_page_range "1-5" = (0, some 5) := by decide
example : parse_page_range "3" = (2, some 3) := by decide
example : parse_page_range "abc" = (0, none) := by decide
example : parse_page_range "5-" = (0, none) := by decide
example : parse_page_range "-3" = (0, none) := by decide
example : parse_page_range " 2 - 7 " = (1, some 7) := by decide
example : cli_parse_range "1-2-3" = (0, none) := by decide
example : cli_parse_range "3" = (2, some 3) := by decide
example :
    convert_single_file true false false (LibResult.completes true) =
      (true, ⟨true, false⟩) := by decide
example :
    convert_single_file true false false LibResult.raises =
      (false, ⟨true, false⟩) := by decide
example :
    convert_single_file false true true LibResult.raises =
      (false, ⟨false, false⟩) := by decide
example :
    batch_convert_loop [⟨true, true⟩, ⟨true, true⟩] ["a", "n"] = ⟨1, 2, 1⟩ := by
  decide
example :
    batch_convert_loop [⟨true, true⟩, ⟨true, true⟩] ["s"] = ⟨0, 1, 0⟩ := by
  decide
example : convert_batch [] = HttpResponse.failure 400 := by decide
example :
    convert_batch [⟨"a.txt", true⟩] = HttpResponse.failure 500 := by decide
example :
    convert_batch [⟨"a.PDF", true⟩] = HttpResponse.archive 1 := by decide

/-! ## Helper lemmas -/

theorem splitAllDash_ne_nil (l : List Char) : splitAllDash l ≠ [] := by
  cases l with
  | nil => simp [splitAllDash]
  | cons c rest =>
    unfold splitAllDash
    by_cases hc : c = '-'
    · rw [if_pos hc]; simp
    · rw [if_neg hc]
      rcases hr : splitAllDash rest with _ | ⟨p, ps⟩ <;> simp

theorem splitAllDash_singleton :
    ∀ {l y : List Char}, splitAllDash l = [y] → l = y := by
  intro l
  induction l with
  | nil =>
    intro y h
    unfold splitAllDash at h
    exact (List.cons.injEq _ _ _ _ ▸ h).1.symm ▸ rfl
  | cons c rest ih =>
    intro y h
    unfold splitAllDash at h
    by_cases hc : c = '-'
    · rw [if_pos hc] at h
      obtain ⟨-, h2⟩ := List.cons.injEq _ _ _ _ ▸ h
      exact absurd h2 (splitAllDash_ne_nil rest)
    · rw [if_neg hc] at h
      rcases hr : splitAllDash rest with _ | ⟨p, ps⟩
      · exact absurd hr (splitAllDash_ne_nil rest)
      · rw [hr] at h
        obtain ⟨h1, h2⟩ := List.cons.injEq _ _ _ _ ▸ h
        subst h2
        have : rest = p := ih hr
        rw [← h1, this]

theorem splitAllDash_pair :
    ∀ {l x y : List Char}, splitAllDash l = [x, y] → splitOnceDash l = (x, y) := by
  intro l
  induction l with
  | nil =>
    intro x y h
    unfold splitAllDash at h
    exact absurd (List.cons.injEq _ _ _ _ ▸ h).2 (by simp)
  | cons c rest ih =>
    intro x y h
    unfold splitAllDash at h
    by_cases hc : c = '-'
    · rw [if_pos hc] at h
      obtain ⟨h1, h2⟩ := List.cons.injEq _ _ _ _ ▸ h
      have hr : rest = y := splitAllDash_singleton h2
      unfold splitOnceDash
      rw [if_pos hc, ← h1, hr]
    · rw [if_neg hc] at h
      rcases hr : splitAllDash rest with _ | ⟨p, ps⟩
      · exact absurd hr (splitAllDash_ne_nil rest)
      · rw [hr] at h
        obtain ⟨h1, h2⟩ := List.cons.injEq _ _ _ _ ▸ h
        have hps : ps = [y] := h2
        rw [hps] at hr
        have hro := ih hr
        unfold splitOnceDash
        rw [if_neg hc, hro, ← h1]

theorem parse_start_nonneg (s : String) : 0 ≤ (parse_page_range s).1 := by
  unfold parse_page_range
  by_cases hs : s = ""
  · rw [if_pos hs]
  · rw [if_neg hs]
    by_cases hd : ((stripChars s.data).contains '-') = true
    · rw [if_pos hd]
      rcases h1 : pyIntOfChars (splitOnceDash (stripChars s.data)).1 with _ | a
      · simp
      · rcases h2 : pyIntOfChars (splitOnceDash (stripChars s.data)).2 with _ | b
        · simp
        · simp [le_max_right]
    · rw [if_neg hd]
      rcases h1 : pyIntOfChars (stripChars s.data) with _ | n
      · simp
      · simp [le_max_right]

theorem bool_not_true {b : Bool} (h : b = false) : ¬(b = true) := by
  rw [h]
  exact Bool.false_ne_true

theorem parse_cases (s : String) :
    parse_page_range s = (0, none) ∨
    (∃ a b : Int, ((stripChars s.data).contains '-') = true ∧
      pyIntOfChars (splitOnceDash (stripChars s.data)).1 = some a ∧
      pyIntOfChars (splitOnceDash (stripChars s.data)).2 = some b ∧
      parse_page_range s = (max (a - 1) 0, some b)) ∨
    (∃ n : Int, ((stripChars s.data).contains '-') = false ∧
      pyIntOfChars (stripChars s.data) = some n ∧
      parse_page_range s = (max (n - 1) 0, some (max (n - 1) 0 + 1))) := by
  by_cases hs : s = ""
  · exact Or.inl (by rw [parse_page_range, if_pos hs])
  · by_cases hd : ((stripChars s.data).contains '-') = true
    · rcases h1 : pyIntOfChars (splitOnceDash (stripChars s.data)).1 with _ | a
      · refine Or.inl ?_
        unfold parse_page_range
        rw [if_neg hs, if_pos hd, h1]
      · rcases h2 : pyIntOfChars (splitOnceDash (stripChars s.data)).2 with _ | b
        · refine Or.inl ?_
          unfold parse_page_range
          rw [if_neg hs, if_pos hd, h1, h2]
        · refine Or.inr (Or.inl ⟨a, b, hd, rfl, rfl, ?_⟩)
          unfold parse_page_range
          rw [if_neg hs, if_pos hd, h1, h2]
    · rcases h1 : pyIntOfChars (stripChars s.data) with _ | n
      · refine Or.inl ?_
        unfold parse_page_range
        rw [if_neg hs, if_neg hd, h1]
      · refine Or.inr (Or.inr ⟨n, Bool.not_eq_true _ ▸ hd, rfl, ?_⟩)
        unfold parse_page_range
        rw [if_neg hs, if_neg hd, h1]

theorem parse_val_dash (s : String) (hs : s ≠ "")
    (hd : ((stripChars s.data).contains '-') = true) :
    parse_page_range s =
      (match pyIntOfChars (splitOnceDash (stripChars s.data)).1,
             pyIntOfChars (splitOnceDash (stripChars s.data)).2 with
       | some a, some b => (max (a - 1) 0, some b)
       | _, _ => (0, none)) := by
  unfold parse_page_range
  rw [if_neg hs, if_pos hd]

theorem parse_val_nodash (s : String) (hs : s ≠ "")
    (hd : ¬(((stripChars s.data).contains '-') = true)) :
    parse_page_range s =
      (match pyIntOfChars (stripChars s.data) with
       | some n => (max (n - 1) 0, some (max (n - 1) 0 + 1))
       | none => (0, none)) := by
  unfold parse_page_range
  rw [if_neg hs, if_neg hd]

theorem cli_val_empty (s : String) (hne : stripChars s.data = []) :
    cli_parse_range s = (0, none) := by
  unfold cli_parse_range
  rw [if_pos hne]

theorem cli_val_nodash (s : String) (hne : ¬(stripChars s.data = []))
    (hd : ¬(((stripChars s.data).contains '-') = true)) :
    cli_parse_range s =
      (match pyIntOfChars (stripChars s.data) with
       | some n => (n - 1, some (n - 1 + 1))
       | none => (0, none)) := by
  unfold cli_parse_range
  rw [if_neg hne, if_neg hd]

theorem cli_val_pair (s : String) (x y : List Char)
    (hne : ¬(stripChars s.data = []))
    (hd : ((stripChars s.data).contains '-') = true)
    (hsp : splitAllDash (stripChars s.data) = [x, y]) :
    cli_parse_range s =
      (match pyIntOfChars x with
       | none => (0, none)
       | some a =>
         match pyIntOfChars y with
         | some b => (a - 1, some b)
         | none => (a - 1, none)) := by
  unfold cli_parse_range
  rw [if_neg hne, if_pos hd, hsp]

theorem cli_val_single (s : String) (x : List Char)
    (hne : ¬(stripChars s.data = []))
    (hd : ((stripChars s.data).contains '-') = true)
    (hsp : splitAllDash (stripChars s.data) = [x]) :
    cli_parse_range s = (0, none) := by
  unfold cli_parse_range
  rw [if_neg hne, if_pos hd, hsp]

theorem cli_val_many (s : String) (x y z : List Char) (rest : List (List Char))
    (hne : ¬(stripChars s.data = []))
    (hd : ((stripChars s.data).contains '-') = true)
    (hsp : splitAllDash (stripChars s.data) = x :: y :: z :: rest) :
    cli_parse_range s = (0, none) := by
  unfold cli_parse_range
  rw [if_neg hne, if_pos hd, hsp]

/-! ## Claim theorems -/

/-- C1: the claim asserts that every parse failure yields the whole-document
fallback `(0, none)` in both the HTTP parser and the CLI inline parser, with
no exception escaping.  This holds for the HTTP parser, but the CLI code is a
slip: on the partially parseable input `"5-x"` it has already executed
`start_page = int("5") - 1` when `int("x")` raises, and its `except ValueError`
arm only prints that the whole document will be converted without resetting
`start_page`; the CLI thus proceeds with `(4, none)` while the HTTP parser
falls back to `(0, none)`. -/
theorem cli_parse_range_partial_fallback_bug :
    cli_parse_range "5-x" = (4, none) ∧ parse_page_range "5-x" = (0, none) := by
  decide

/-- C2: on valid inputs the HTTP parser behaves as specified: a range whose
two dash-split parts parse as integers `a ≥ 1` and `b ≥ a` yields
`(a - 1, some b)`; a single integer `n ≥ 1` yields `(n - 1, some n)`; and the
empty and the whitespace-only string yield the whole-document `(0, none)`. -/
theorem parse_page_range_valid_inputs :
    (∀ (s : String) (a b : Int), s ≠ "" →
      ((stripChars s.data).contains '-') = true →
      pyIntOfChars (splitOnceDash (stripChars s.data)).1 = some a →
      pyIntOfChars (splitOnceDash (stripChars s.data)).2 = some b →
      1 ≤ a → a ≤ b →
      parse_page_range s = (a - 1, some b))
    ∧ (∀ (s : String) (n : Int), s ≠ "" →
      ((stripChars s.data).contains '-') = false →
      pyIntOfChars (stripChars s.data) = some n →
      1 ≤ n →
      parse_page_range s = (n - 1, some n))
    ∧ parse_page_range "" = (0, none)
    ∧ parse_page_range " " = (0, none) := by
  refine ⟨?_, ?_, by decide, by decide⟩
  · intro s a b hs hd ha hb h1 _
    unfold parse_page_range
    rw [if_neg hs, if_pos hd, ha, hb]
    show (max (a - 1) 0, some b) = (a - 1, some b)
    rw [max_eq_left (by omega : (0 : Int) ≤ a - 1)]
  · intro s n hs hd hn h1
    unfold parse_page_range
    rw [if_neg hs, if_neg (bool_not_true hd), hn]
    show (max (n - 1) 0, some (max (n - 1) 0 + 1)) = (n - 1, some n)
    rw [max_eq_left (by omega : (0 : Int) ≤ n - 1)]
    have h2 : n - 1 + 1 = n := by omega
    rw [h2]

theorem parse_page_range_valid_inputs_witness :
    parse_page_range "2-5" = (1, some 5) ∧ parse_page_range "3" = (2, some 3) :=
  ⟨parse_page_range_valid_inputs.1 "2-5" 2 5 (by decide) (by decide) (by decide)
      (by decide) (by decide) (by decide),
   parse_page_range_valid_inputs.2.1 "3" 3 (by decide) (by decide) (by decide)
      (by decide)⟩

/-- C4: the claim asserts that every parser output satisfies the PageRange
invariant `start ≥ 0 ∧ (end bounded → start < end)`.  The second half fails:
the input `"5-2"` is accepted and produces `start = 4`, `end = 2`. -/
theorem parse_page_range_invariant_cex :
    parse_page_range "5-2" = (4, some 2) ∧ ¬((4 : Int) < 2) := by decide

/-- C4 (amended): every parser output has `start ≥ 0`; and `start < end`
holds whenever `end` is bounded, provided the input is in the ordered class
`orderedRangeInput` (no dash, or an `int` failure, or dash-split values
`a ≤ b` with `1 ≤ b`) — inputs such as `"5-2"` are outside that class and
violate `start < end`. -/
theorem parse_page_range_invariant_amended (s : String) :
    0 ≤ (parse_page_range s).1 ∧
    (orderedRangeInput (stripChars s.data) = true →
      ∀ e : Int, (parse_page_range s).2 = some e → (parse_page_range s).1 < e) := by
  refine ⟨parse_start_nonneg s, ?_⟩
  intro hord e he
  rcases parse_cases s with hp | ⟨a, b, hd, h1, h2, hp⟩ | ⟨n, hd, h1, hp⟩
  · rw [hp] at he
    exact absurd he (by simp)
  · rw [hp] at he ⊢
    simp only [Option.some.injEq] at he
    subst he
    unfold orderedRangeInput at hord
    rw [if_pos hd, h1, h2] at hord
    have hab : a ≤ b ∧ 1 ≤ b := of_decide_eq_true hord
    exact max_lt (by omega) (by omega)
  · rw [hp] at he ⊢
    simp only [Option.some.injEq] at he
    subst he
    exact lt_add_one _

theorem parse_page_range_invariant_amended_witness :
    (parse_page_range "5-7").1 < 7 :=
  (parse_page_range_invariant_amended "5-7").2 (by decide) 7 (by decide)

/-- C10: for every input string, the HTTP parser's start value is ≥ 0 (the
`max(..., 0)` clamp and the zero fallback cover all paths), so the HTTP path
never hands a negative start page to the conversion adapter. -/
theorem parse_page_range_start_nonneg (s : String) :
    0 ≤ (parse_page_range s).1 :=
  parse_start_nonneg s

/-- C9: the claim asserts that the HTTP parser and the CLI inline parser are
extensionally equal.  They are not: on `"0-5"` the HTTP parser clamps the
start with `max(int("0") - 1, 0)` and returns `(0, some 5)`, while the CLI
parser has no clamp and returns `(-1, some 5)`. -/
theorem parsers_disagree_cex :
    parse_page_range "0-5" = (0, some 5) ∧ cli_parse_range "0-5" = (-1, some 5) ∧
    parse_page_range "0-5" ≠ cli_parse_range "0-5" := by
  decide

/-- C9 (amended): the HTTP parser and the CLI inline parser agree on every
input in the class `parsersAgreeCond` — stripped text with no dash that fails
integer parsing or denotes an integer ≥ 1, or dashed text whose first piece
fails integer parsing, or dashed text splitting into exactly two integer
pieces with left value ≥ 1.  Outside that class they can differ (`"0-5"`,
`"0"`, `"5-x"`, `"5- -3"`). -/
theorem parsers_agree_on_common_domain (s : String)
    (h : parsersAgreeCond (stripChars s.data) = true) :
    parse_page_range s = cli_parse_range s := by
  by_cases hs : s = ""
  · subst hs
    decide
  · unfold parsersAgreeCond at h
    by_cases hd : ((stripChars s.data).contains '-') = true
    · have hne : ¬(stripChars s.data = []) := by
        intro h0
        rw [h0] at hd
        exact absurd hd (by decide)
      rw [if_pos hd] at h
      rw [parse_val_dash s hs hd]
      rcases hsp : splitAllDash (stripChars s.data) with _ | ⟨x, _ | ⟨y, _ | ⟨z, rest⟩⟩⟩
      · exact absurd hsp (splitAllDash_ne_nil _)
      · -- one dash-split piece: the shared-failure arm of the condition
        rw [cli_val_single s x hne hd hsp]
        have h1 : (match pyIntOfChars (splitOnceDash (stripChars s.data)).1 with
                   | none => true
                   | some _ => false) = true := by
          rw [hsp] at h
          exact h
        rcases hx : pyIntOfChars (splitOnceDash (stripChars s.data)).1 with _ | a
        · rfl
        · rw [hx] at h1
          exact absurd h1 Bool.false_ne_true
      · -- exactly two pieces
        rw [cli_val_pair s x y hne hd hsp, splitAllDash_pair hsp]
        have h2 : (match pyIntOfChars x, pyIntOfChars y with
                   | none, _ => true
                   | some a, some _ => decide (1 ≤ a)
                   | some _, none => false) = true := by
          rw [hsp] at h
          exact h
        revert h2
        rcases hx : pyIntOfChars x with _ | a
        · intro h2
          rfl
        · rcases hy : pyIntOfChars y with _ | b
          · intro h2
            exact absurd (h2 : (false : Bool) = true) Bool.false_ne_true
          · intro h2
            have ha : 1 ≤ a := of_decide_eq_true (h2 : decide (1 ≤ a) = true)
            show (max (a - 1) 0, some b) = (a - 1, some b)
            rw [max_eq_left (by omega : (0 : Int) ≤ a - 1)]
      · -- three or more pieces: the shared-failure arm of the condition
        rw [cli_val_many s x y z rest hne hd hsp]
        have h1 : (match pyIntOfChars (splitOnceDash (stripChars s.data)).1 with
                   | none => true
                   | some _ => false) = true := by
          rw [hsp] at h
          exact h
        rcases hx : pyIntOfChars (splitOnceDash (stripChars s.data)).1 with _ | a
        · rfl
        · rw [hx] at h1
          exact absurd h1 Bool.false_ne_true
    · rw [if_neg hd] at h
      by_cases hne : stripChars s.data = []
      · rw [cli_val_empty s hne, parse_val_nodash s hs hd, hne]
        rfl
      · rw [parse_val_nodash s hs hd, cli_val_nodash s hne hd]
        rcases hn : pyIntOfChars (stripChars s.data) with _ | n
        · rfl
        · have h2 : decide (1 ≤ n) = true := by
            rw [hn] at h
            exact h
          have h3 : 1 ≤ n := of_decide_eq_true h2
          show (max (n - 1) 0, some (max (n - 1) 0 + 1)) = (n - 1, some (n - 1 + 1))
          rw [max_eq_left (by omega : (0 : Int) ≤ n - 1)]

theorem parsers_agree_on_common_domain_witness :
    parse_page_range "2-5" = cli_parse_range "2-5" :=
  parsers_agree_on_common_domain "2-5" (by decide)

/-- C3: `convert_single_file` returns `true` exactly when the source exists,
`os.makedirs` did not raise, and the library call completed with the
destination present afterwards; a raising library call yields `false`; and
every exception reaching the end of the `try:` body is absorbed by the
`except Exception` arm into a `false` result, so nothing propagates to the
caller. -/
theorem convert_single_file_result_iff (pe nm mr : Bool) (lib : LibResult) :
    ((convert_single_file pe nm mr lib).1 = true ↔
      (pe = true ∧ (nm && mr) = false ∧ lib = LibResult.completes true))
    ∧ (lib = LibResult.raises → (convert_single_file pe nm mr lib).1 = false)
    ∧ ((convert_try_body pe nm mr lib).1 = Except.error () →
      (convert_single_file pe nm mr lib).1 = false) := by
  rcases lib with d | _
  · cases d <;> cases pe <;> cases nm <;> cases mr <;> decide
  · cases pe <;> cases nm <;> cases mr <;> decide

theorem convert_single_file_result_iff_witness :
    (convert_single_file true false false LibResult.raises).1 = false ∧
    (convert_single_file true false false (LibResult.completes true)).1 = true :=
  ⟨(convert_single_file_result_iff true false false LibResult.raises).2.1 rfl,
   (convert_single_file_result_iff true false false
      (LibResult.completes true)).1.mpr ⟨rfl, rfl, rfl⟩⟩

/-- C5: the claim asserts the four-outcome overwrite decision, with
"overwrite all remaining" suppressing later prompts.  The code's `'a'` arm is
`pass` (nothing is recorded), contradicting both its own prompt text
(`a=all`) and the trailing comment: with two files whose outputs exist and
answers `["a", "n"]` the loop converts the first file, prompts AGAIN at the
second and skips it, giving 1 success, 2 prompts, 1 attempt — the claimed
behaviour would give 2 successes, 1 prompt, 2 attempts.  The skip-all answer
`"s"` does behave as claimed (1 prompt, 0 attempts, loop left). -/
theorem batch_convert_loop_overwrite_all_bug :
    batch_convert_loop [⟨true, true⟩, ⟨true, true⟩] ["a", "n"] = ⟨1, 2, 1⟩ ∧
    batch_convert_loop [⟨true, true⟩, ⟨true, true⟩] ["s"] = ⟨0, 1, 0⟩ := by
  decide

/-- C6: the claim asserts a 500-class failure whenever zero uploads convert
successfully.  With an empty upload list zero uploads convert successfully,
yet the handler returns the 400 "please upload at least one PDF" failure, not
a 500-class one. -/
theorem convert_batch_empty_cex :
    batch_success [] = 0 ∧ convert_batch [] = HttpResponse.failure 400 ∧
    convert_batch [] ≠ HttpResponse.failure 500 := by
  decide

/-- C6 (amended): every upload whose filename does not end in `.pdf`
case-insensitively is never attempted; when at least one entry was uploaded
and zero convert successfully, the handler returns the 500 structured failure
and never an archive; with zero uploaded entries it returns the 400
structured failure instead. -/
theorem convert_batch_skip_and_failure (files : List UploadEntry) :
    (∀ f ∈ files, pdfNamed f = false → f.filename ∉ batch_attempted files)
    ∧ (files ≠ [] → batch_success files = 0 →
        convert_batch files = HttpResponse.failure 500)
    ∧ (files = [] → convert_batch files = HttpResponse.failure 400)
    ∧ (batch_success files = 0 → ∀ n, convert_batch files ≠ HttpResponse.archive n) := by
  refine ⟨?_, ?_, ?_, ?_⟩
  · intro f _ hnp hmem
    unfold batch_attempted at hmem
    rcases List.mem_map.1 hmem with ⟨g, hg, hgf⟩
    have hgp : pdfNamed g = true := (List.mem_filter.1 hg).2
    have : pdfNamed g = pdfNamed f := by
      unfold pdfNamed
      rw [hgf]
    rw [this, hnp] at hgp
    exact Bool.false_ne_true hgp
  · intro h0 hsucc
    unfold convert_batch
    rw [if_neg h0, if_pos hsucc]
  · intro h0
    unfold convert_batch
    rw [if_pos h0]
  · intro hsucc n hcontra
    unfold convert_batch at hcontra
    by_cases h0 : files = []
    · rw [if_pos h0] at hcontra
      exact HttpResponse.noConfusion hcontra
    · rw [if_neg h0, if_pos hsucc] at hcontra
      exact HttpResponse.noConfusion hcontra

theorem convert_batch_skip_and_failure_witness :
    "a.txt" ∉ batch_attempted [⟨"a.txt", true⟩] ∧
    convert_batch [⟨"a.txt", true⟩] = HttpResponse.failure 500 :=
  ⟨(convert_batch_skip_and_failure [⟨"a.txt", true⟩]).1 ⟨"a.txt", true⟩
      (by decide) (by decide),
   (convert_batch_skip_and_failure [⟨"a.txt", true⟩]).2.1 (by decide) (by decide)⟩

/-- C7: when the source path does not exist, `convert_single_file` returns
`false` before the library import is used for conversion: the external
library's convert is never invoked, `os.makedirs` is never invoked (so no
destination directory is created), and consequently no output file is
produced. -/
theorem convert_single_file_missing_source (nm mr : Bool) (lib : LibResult) :
    convert_single_file false nm mr lib = (false, ⟨false, false⟩) := by
  rcases lib with d | _ <;> rfl

/-- C8: whenever the `/api/pdf-info` handler materializes an upload to a
temporary path (a file was present), the temporary path is removed on both
exits — the success return and the metadata-unavailable 500 return — and the
response is either the metadata payload or a structured failure. -/
theorem pdf_info_temp_removed (info : Option PdfMetadata) :
    (pdf_info true info).2 = true ∧
    (pdf_info true info).1 =
      (match info with
       | none => Sum.inl (HttpResponse.failure 500)
       | some m => Sum.inr m) := by
  cases info <;> exact ⟨rfl, rfl⟩
